import Mathlib

/-!
Shallow embedding of `scripts/akshare_fund_flow.py`.

The script classifies a ticker into a market (`sh`/`sz`), fetches a fund-flow
time series from an external provider (`ak.stock_individual_fund_flow`),
normalizes the last row into a fixed eight-field dict, and emits it as JSON.
The provider is a boundary collaborator; it is modelled as a parameter of type
`Fetch` that either returns a list of rows or raises an exception.

Python values found in a fetched row are modelled by whether `float()`
converts them; Python strings are modelled through their character sequences
(`String.data`), matching Python's character-based `startswith` and slicing.
-/

/-- A Python value stored in a fetched row: either a value that Python
`float()` converts to a number (ints, floats, numeric strings), carried as a
rational, or a value on which `float()` raises `ValueError`/`TypeError`. -/
inductive PyValue where
  | num (q : ℚ)
  | nonNumeric
deriving DecidableEq

/-- A fetched row: a finite mapping from provider field names (source locale)
to values, as an association list. -/
abbrev Row := List (String × PyValue)

/-- pandas `Series.get(key, default)`: the value under `key` when present,
otherwise the default. -/
def rowGet (row : Row) (key : String) (dflt : PyValue) : PyValue :=
  match row.find? (fun kv => kv.1 == key) with
  | some kv => kv.2
  | none => dflt

/-- Python `float(v)`: succeeds on convertible values, raises otherwise. -/
def pyFloat : PyValue → Except String ℚ
  | .num q => .ok q
  | .nonNumeric => .error "could not convert value to float"

/-- Python `s.startswith(p)` on the sequence of characters. -/
def pyStartsWith (s p : String) : Bool :=
  p.data.isPrefixOf s.data

/-- Outcome of the provider call `ak.stock_individual_fund_flow(stock, market)`:
a (possibly empty) list of rows, or a raised exception with a message. -/
inductive FetchResult where
  | ok (rows : List Row)
  | error (msg : String)

/-- The external provider, abstracted: `(stock, market) → result`. -/
abbrev Fetch := String → String → FetchResult

/-- The `fund_flow` dict built from the latest row (lines 40-49); all eight
values are produced by `float(...)`. -/
structure FundFlow where
  main_net_inflow : ℚ
  super_large_net_inflow : ℚ
  large_net_inflow : ℚ
  medium_net_inflow : ℚ
  small_net_inflow : ℚ
  net_inflow_ratio : ℚ
  active_buy_amount : ℚ
  active_sell_amount : ℚ
deriving DecidableEq

/-- Market determination (lines 23-28 of `get_fund_flow_data`): `some "sh"`,
`some "sz"`, or `none` for the early `return None` branch. -/
def classifyMarket (stock_code : String) : Option String :=
  if pyStartsWith stock_code "60" || pyStartsWith stock_code "68" ||
      pyStartsWith stock_code "51" then
    some "sh"
  else if pyStartsWith stock_code "00" || pyStartsWith stock_code "30" then
    some "sz"
  else
    none

/-- One field of the dict construction:
`float(latest_data.get(key, 0))` — absent key defaults to `0`, then `float()`
is applied (and may raise on a present non-convertible value). -/
def coerceField (row : Row) (key : String) : Except String ℚ :=
  pyFloat (rowGet row key (.num 0))

/-- Body of the `try` block of `get_fund_flow_data` (lines 21-51):
classification, provider call, empty check, last-row selection, and the dict
construction with its eight `float()` calls evaluated left to right; an
`Except.error` is an exception propagating to the handler. -/
def getFundFlowTry (fetch : Fetch) (stock_code : String) :
    Except String (Option FundFlow) :=
  match classifyMarket stock_code with
  | none => .ok none
  | some market =>
    match fetch stock_code market with
    | .error e => .error e
    | .ok rows =>
      match rows.getLast? with
      | none => .ok none
      | some latest =>
        match coerceField latest "主力净流入-净额" with
        | .error e => .error e
        | .ok v1 =>
        match coerceField latest "超大单净流入-净额" with
        | .error e => .error e
        | .ok v2 =>
        match coerceField latest "大单净流入-净额" with
        | .error e => .error e
        | .ok v3 =>
        match coerceField latest "中单净流入-净额" with
        | .error e => .error e
        | .ok v4 =>
        match coerceField latest "小单净流入-净额" with
        | .error e => .error e
        | .ok v5 =>
        match coerceField latest "主力净流入-净占比" with
        | .error e => .error e
        | .ok v6 =>
        match coerceField latest "主力买入成交额" with
        | .error e => .error e
        | .ok v7 =>
        match coerceField latest "主力卖出成交额" with
        | .error e => .error e
        | .ok v8 => .ok (some ⟨v1, v2, v3, v4, v5, v6, v7, v8⟩)

/-- The diagnostic line printed by the `except` handler (line 54). -/
def errMsg (stock_code : String) (e : String) : String :=
  "Error getting fund flow data for " ++ stock_code ++ ": " ++ e

/-- What `get_fund_flow_data` produces: its return value, plus the diagnostic
written to stderr by the handler (if any). -/
structure GetOutcome where
  result : Option FundFlow
  diag : Option String
deriving DecidableEq

/-- `get_fund_flow_data`: the `try` body with every raised exception caught by
the single `except Exception` handler, logged, and converted to `None`. -/
def get_fund_flow_data (fetch : Fetch) (stock_code : String) : GetOutcome :=
  match getFundFlowTry fetch stock_code with
  | .ok v => ⟨v, none⟩
  | .error e => ⟨none, some (errMsg stock_code e)⟩

/-- A JSON value as `json.dumps` receives it from this script: Python ints and
floats serialize as JSON numbers of the corresponding numeric type; `null` and
strings are included so that absence of them in the output is expressible. -/
inductive JValue where
  | int (n : Int)
  | float (q : ℚ)
  | null
  | str (s : String)
deriving DecidableEq

/-- Whether a JSON value is numeric (an int or a float). -/
def JValue.isNumeric : JValue → Bool
  | .int _ => true
  | .float _ => true
  | _ => false

/-- Numeric-typing tag of a JSON value (int = 0, float = 1, otherwise 2/3). -/
def JValue.typeTag : JValue → Nat
  | .int _ => 0
  | .float _ => 1
  | .null => 2
  | .str _ => 3

/-- A JSON object: ordered field list, as `json.dumps` serializes a dict. -/
abbrev JObject := List (String × JValue)

/-- Field-name/typing shape of a JSON object. -/
def objTyping (o : JObject) : List (String × Nat) :=
  o.map (fun kv => (kv.1, kv.2.typeTag))

/-- The JSON object emitted on the success path (line 77):
`json.dumps(fund_flow_data)`, whose values are Python floats. -/
def flowJson (ff : FundFlow) : JObject :=
  [("main_net_inflow", .float ff.main_net_inflow),
   ("super_large_net_inflow", .float ff.super_large_net_inflow),
   ("large_net_inflow", .float ff.large_net_inflow),
   ("medium_net_inflow", .float ff.medium_net_inflow),
   ("small_net_inflow", .float ff.small_net_inflow),
   ("net_inflow_ratio", .float ff.net_inflow_ratio),
   ("active_buy_amount", .float ff.active_buy_amount),
   ("active_sell_amount", .float ff.active_sell_amount)]

/-- The literal fallback dict in `main` (lines 79-88), whose values are the
Python int `0`. -/
def zeroJson : JObject :=
  [("main_net_inflow", .int 0),
   ("super_large_net_inflow", .int 0),
   ("large_net_inflow", .int 0),
   ("medium_net_inflow", .int 0),
   ("small_net_inflow", .int 0),
   ("net_inflow_ratio", .int 0),
   ("active_buy_amount", .int 0),
   ("active_sell_amount", .int 0)]

/-- The eight canonical output field names, in emission order. -/
def fieldNames : List String :=
  ["main_net_inflow", "super_large_net_inflow", "large_net_inflow",
   "medium_net_inflow", "small_net_inflow", "net_inflow_ratio",
   "active_buy_amount", "active_sell_amount"]

/-- The eight source-locale field names consumed from the latest row, in the
order their `float()` calls are evaluated. -/
def fieldKeys : List String :=
  ["主力净流入-净额", "超大单净流入-净额", "大单净流入-净额", "中单净流入-净额",
   "小单净流入-净额", "主力净流入-净占比", "主力买入成交额", "主力卖出成交额"]

/-- One printed line: plain text, or a serialized JSON object. -/
inductive OutLine where
  | text (s : String)
  | json (o : JObject)
deriving DecidableEq

/-- Observable outcome of a whole invocation of the script. -/
structure MainOutcome where
  stdout : List OutLine
  stderr : List String
  exitCode : Nat
deriving DecidableEq

/-- The usage line printed on wrong argument count (line 60). -/
def usageLine : String := "Usage: python akshare_fund_flow.py <stock_code>"

/-- The prefix stripping in `main` (lines 66-69): when the input starts with
`SH` or `SZ` (case-sensitive), Python's `input[2:]` drops exactly the first
two characters. -/
def stripCode (input : String) : String :=
  if pyStartsWith input "SH" || pyStartsWith input "SZ" then input.drop 2
  else input

/-- The `main` function (lines 57-88), named `runMain` since Lean reserves `main`: `argv` is the full `sys.argv`, program
name included. `if fund_flow_data:` tests dict truthiness, which for the
always-eight-key dict coincides with `is not None`. -/
def runMain (fetch : Fetch) (argv : List String) : MainOutcome :=
  if argv.length ≠ 2 then
    ⟨[.text usageLine], [], 1⟩
  else
    let stock_code_input := argv.getD 1 ""
    let stock_code := stripCode stock_code_input
    let r := get_fund_flow_data fetch stock_code
    match r.result with
    | some ff => ⟨[.json (flowJson ff)], r.diag.toList, 0⟩
    | none => ⟨[.json zeroJson], r.diag.toList, 0⟩

/-- Exchange, as the specification's data model names it. -/
inductive Exchange where
  | shanghai
  | shenzhen
  | unsupported
deriving DecidableEq

/-- Classification exactly as the specification words it (spec §4.1), for the
refinement claim C1: checks, in order, starts-with `60`, `68`, `51` giving
Shanghai, then `00`, `30` giving Shenzhen, else Unsupported. -/
def classifySpec (t : String) : Exchange :=
  if pyStartsWith t "60" then .shanghai
  else if pyStartsWith t "68" then .shanghai
  else if pyStartsWith t "51" then .shanghai
  else if pyStartsWith t "00" then .shenzhen
  else if pyStartsWith t "30" then .shenzhen
  else .unsupported

/-- The per-field value the last row yields: the converted value when the key
is present (and convertible), `0` when absent. -/
def fieldVal (row : Row) (key : String) : ℚ :=
  match rowGet row key (PyValue.num 0) with
  | .num q => q
  | .nonNumeric => 0

/-- Helper: a convertible (or absent) field coerces to its `fieldVal`. -/
theorem coerceField_ok_of_convertible (row : Row) (k : String)
    (h : rowGet row k (PyValue.num 0) ≠ PyValue.nonNumeric) :
    coerceField row k = .ok (fieldVal row k) := by
  cases hr : rowGet row k (PyValue.num 0) with
  | num q => simp [coerceField, fieldVal, pyFloat, hr]
  | nonNumeric => exact absurd hr h

/-- C1: classification checks the digit prefixes in order — `60`, `68`, `51`
map to Shanghai (`sh`), `00`, `30` map to Shenzhen (`sz`), and every other
string (empty and non-digit strings included) is Unsupported (`None`); the
code's market determination agrees with the spec-worded classifier on every
string. -/
theorem C1_classifier_refines_spec (s : String) :
    (classifyMarket s = some "sh" ↔ classifySpec s = Exchange.shanghai) ∧
    (classifyMarket s = some "sz" ↔ classifySpec s = Exchange.shenzhen) ∧
    (classifyMarket s = none ↔ classifySpec s = Exchange.unsupported) := by
  unfold classifyMarket classifySpec
  cases h1 : pyStartsWith s "60" <;> cases h2 : pyStartsWith s "68" <;>
    cases h3 : pyStartsWith s "51" <;> cases h4 : pyStartsWith s "00" <;>
      cases h5 : pyStartsWith s "30" <;> simp

/-- C9: with an argument count other than exactly one ticker
(`len(sys.argv) != 2`), the program prints the usage line on standard output,
emits no JSON, and exits with status 1. -/
theorem C9_usage_on_wrong_argc (fetch : Fetch) (argv : List String)
    (h : argv.length ≠ 2) :
    runMain fetch argv = ⟨[.text usageLine], [], 1⟩ ∧
    ∀ o : JObject, OutLine.json o ∉ (runMain fetch argv).stdout := by
  refine ⟨by simp [runMain, h], ?_⟩
  intro o
  simp [runMain, h]

/-- Witness for C9 at the concrete invocation with zero user arguments. -/
theorem C9_witness :
    runMain (fun _ _ => .ok []) ["akshare_fund_flow.py"] =
      ⟨[.text usageLine], [], 1⟩ :=
  (C9_usage_on_wrong_argc (fun _ _ => .ok []) ["akshare_fund_flow.py"]
    (by decide)).1

/-- C2: with exactly one ticker argument, whenever the classification is
Unsupported, or the fetched series is empty, or the fetch fails, the program
emits the all-zero snapshot (all eight fields `0`) and exits with status 0. -/
theorem C2_zero_snapshot_on_degenerate_paths (fetch : Fetch) (t : String)
    (h : ∀ m, classifyMarket (stripCode t) = some m →
      fetch (stripCode t) m = .ok [] ∨ ∃ e, fetch (stripCode t) m = .error e) :
    (runMain fetch ["akshare_fund_flow.py", t]).stdout = [.json zeroJson] ∧
    (runMain fetch ["akshare_fund_flow.py", t]).exitCode = 0 ∧
    ∀ kv ∈ zeroJson, kv.2 = JValue.int 0 := by
  have hres : (get_fund_flow_data fetch (stripCode t)).result = none := by
    unfold get_fund_flow_data getFundFlowTry
    cases hm : classifyMarket (stripCode t) with
    | none => simp
    | some m =>
      rcases h m hm with hf | ⟨e, hf⟩ <;> simp [hf]
  refine ⟨?_, ?_, by decide⟩ <;> simp [runMain, hres]

/-- Witness for C2 at the unsupported ticker `99`. -/
theorem C2_witness :
    (runMain (fun _ _ => .ok [[]]) ["akshare_fund_flow.py", "99"]).stdout
      = [.json zeroJson] ∧
    (runMain (fun _ _ => .ok [[]]) ["akshare_fund_flow.py", "99"]).exitCode = 0 ∧
    ∀ kv ∈ zeroJson, kv.2 = JValue.int 0 :=
  C2_zero_snapshot_on_degenerate_paths (fun _ _ => .ok [[]]) "99"
    (by intro m hm; rw [show classifyMarket (stripCode "99") = none from by decide] at hm; cases hm)

/-- C8: when the provider call raises, the diagnostic
`Error getting fund flow data for <ticker>: <detail>` goes to stderr, the
all-zero snapshot is still emitted on stdout, and the exit status is 0. -/
theorem C8_provider_error_diagnostic (fetch : Fetch) (t m e : String)
    (hm : classifyMarket (stripCode t) = some m)
    (hf : fetch (stripCode t) m = .error e) :
    runMain fetch ["akshare_fund_flow.py", t] =
      ⟨[.json zeroJson], [errMsg (stripCode t) e], 0⟩ := by
  have hg : get_fund_flow_data fetch (stripCode t) =
      ⟨none, some (errMsg (stripCode t) e)⟩ := by
    unfold get_fund_flow_data getFundFlowTry
    simp [hm, hf]
  simp [runMain, hg]

/-- Witness for C8 at ticker `600000` with a provider that always raises. -/
theorem C8_witness :
    runMain (fun _ _ => .error "boom") ["akshare_fund_flow.py", "600000"] =
      ⟨[.json zeroJson], [errMsg "600000" "boom"], 0⟩ :=
  C8_provider_error_diagnostic (fun _ _ => .error "boom") "600000" "sh" "boom"
    (by decide) rfl

/-- C4: with a fetched series of two or more rows, the emitted outcome is a
function of the last row only — two series agreeing on their last row produce
identical output, whatever the earlier rows hold. -/
theorem C4_last_row_determines_output (t : String) (rows₁ rows₂ : List Row)
    (h₁ : 2 ≤ rows₁.length) (h₂ : 2 ≤ rows₂.length)
    (hlast : rows₁.getLast? = rows₂.getLast?) :
    runMain (fun _ _ => .ok rows₁) ["akshare_fund_flow.py", t] =
      runMain (fun _ _ => .ok rows₂) ["akshare_fund_flow.py", t] := by
  have htry : getFundFlowTry (fun _ _ => .ok rows₁) (stripCode t) =
      getFundFlowTry (fun _ _ => .ok rows₂) (stripCode t) := by
    unfold getFundFlowTry
    cases classifyMarket (stripCode t) <;> simp [hlast]
  have hg : get_fund_flow_data (fun _ _ => .ok rows₁) (stripCode t) =
      get_fund_flow_data (fun _ _ => .ok rows₂) (stripCode t) := by
    unfold get_fund_flow_data
    rw [htry]
  simp [runMain, hg]

/-- Witness for C4: two two-row series differing in the first row, agreeing
on the last. -/
theorem C4_witness :
    runMain (fun _ _ => .ok [[("x", PyValue.num 1)], []])
        ["akshare_fund_flow.py", "600000"] =
      runMain (fun _ _ => .ok [[("x", PyValue.num 2)], []])
        ["akshare_fund_flow.py", "600000"] :=
  C4_last_row_determines_output "600000"
    [[("x", PyValue.num 1)], []] [[("x", PyValue.num 2)], []]
    (by decide) (by decide) (by decide)

/-- C6: every emitted snapshot — success and degenerate paths alike — is one
JSON object carrying exactly the eight canonical field names, each with a
numeric value, never null or absent. -/
theorem C6_eight_numeric_fields (fetch : Fetch) (t : String) :
    ∃ o : JObject, (runMain fetch ["akshare_fund_flow.py", t]).stdout = [.json o] ∧
      o.map Prod.fst = fieldNames ∧ ∀ kv ∈ o, kv.2.isNumeric = true := by
  cases hr : (get_fund_flow_data fetch (stripCode t)).result with
  | some ff =>
    refine ⟨flowJson ff, by simp [runMain, hr], rfl, ?_⟩
    intro kv hkv
    simp only [flowJson, List.mem_cons, List.not_mem_nil, or_false] at hkv
    rcases hkv with rfl | rfl | rfl | rfl | rfl | rfl | rfl | rfl <;> rfl
  | none =>
    exact ⟨zeroJson, by simp [runMain, hr], rfl, by decide⟩

/-- C10: `get_fund_flow_data` never propagates an exception — every exception
raised inside the `try` body is converted by the single handler into a `None`
result with a diagnostic, and consequently every single-ticker invocation
reaches JSON emission with exit status 0. -/
theorem C10_exceptions_absorbed (fetch : Fetch) (t : String) :
    (∀ e, getFundFlowTry fetch t = .error e →
        get_fund_flow_data fetch t = ⟨none, some (errMsg t e)⟩) ∧
    ∃ o : JObject,
      (runMain fetch ["akshare_fund_flow.py", t]).stdout = [.json o] ∧
      (runMain fetch ["akshare_fund_flow.py", t]).exitCode = 0 := by
  constructor
  · intro e he
    unfold get_fund_flow_data
    rw [he]
  · cases hr : (get_fund_flow_data fetch (stripCode t)).result with
    | some ff => exact ⟨flowJson ff, by simp [runMain, hr], by simp [runMain, hr]⟩
    | none => exact ⟨zeroJson, by simp [runMain, hr], by simp [runMain, hr]⟩

/-- Witness for C10 with a provider that always raises. -/
theorem C10_witness :
    get_fund_flow_data (fun _ _ => .error "down") "000001" =
      ⟨none, some (errMsg "000001" "down")⟩ ∧
    ∃ o : JObject,
      (runMain (fun _ _ => .error "down") ["akshare_fund_flow.py", "000001"]).stdout
          = [.json o] ∧
      (runMain (fun _ _ => .error "down") ["akshare_fund_flow.py", "000001"]).exitCode
          = 0 :=
  ⟨(C10_exceptions_absorbed (fun _ _ => .error "down") "000001").1 "down" rfl,
    (C10_exceptions_absorbed (fun _ _ => .error "down") "000001").2⟩

/-- C7 counterexample: field names are fixed, but the numeric typing is not
the same on both paths — the success path (one empty row: every field defaults
to `float(0)`) emits float-typed values, while the default path emits the
int-typed literal `0`s. -/
theorem C7_counterexample :
    (runMain (fun _ _ => .ok [[]]) ["akshare_fund_flow.py", "600000"]).stdout
        = [.json (flowJson ⟨0, 0, 0, 0, 0, 0, 0, 0⟩)] ∧
    (runMain (fun _ _ => .ok [[]]) ["akshare_fund_flow.py", "99"]).stdout
        = [.json zeroJson] ∧
    objTyping (flowJson ⟨0, 0, 0, 0, 0, 0, 0, 0⟩) ≠ objTyping zeroJson := by
  decide

/-- C7 amended: every emitting invocation produces exactly one JSON object
with the fixed eight field names and numeric values; but the numeric typing is
per-path — float-typed on the fetched-row path, int-typed zeros on the
default path. -/
theorem C7_amended_output_shape (fetch : Fetch) (t : String) :
    ∃ o : JObject, (runMain fetch ["akshare_fund_flow.py", t]).stdout = [.json o] ∧
      (runMain fetch ["akshare_fund_flow.py", t]).exitCode = 0 ∧
      o.map Prod.fst = fieldNames ∧
      ((∃ ff, o = flowJson ff ∧ objTyping o = fieldNames.map (fun n => (n, 1))) ∨
        (o = zeroJson ∧ objTyping o = fieldNames.map (fun n => (n, 0)))) := by
  cases hr : (get_fund_flow_data fetch (stripCode t)).result with
  | some ff =>
    exact ⟨flowJson ff, by simp [runMain, hr], by simp [runMain, hr], rfl,
      Or.inl ⟨ff, rfl, rfl⟩⟩
  | none =>
    exact ⟨zeroJson, by simp [runMain, hr], by simp [runMain, hr], rfl,
      Or.inr ⟨rfl, rfl⟩⟩

/-- C3 counterexample: a row whose `主力净流入-净额` is present but not
numerically convertible, while `超大单净流入-净额` carries `7` — the whole
record is replaced by the all-zero snapshot (and a diagnostic is raised),
instead of only the bad field being zeroed with the good field kept. -/
theorem C3_counterexample :
    (runMain (fun _ _ => .ok [[("主力净流入-净额", PyValue.nonNumeric),
        ("超大单净流入-净额", PyValue.num 7)]]) ["akshare_fund_flow.py", "600000"]).stdout
      = [.json zeroJson] ∧
    (runMain (fun _ _ => .ok [[("主力净流入-净额", PyValue.nonNumeric),
        ("超大单净流入-净额", PyValue.num 7)]]) ["akshare_fund_flow.py", "600000"]).stderr
      = [errMsg "600000" "could not convert value to float"] ∧
    zeroJson ≠ flowJson ⟨0, 7, 0, 0, 0, 0, 0, 0⟩ := by
  decide

/-- C3 amended: each of the eight fields is resolved from the last row, an
absent key is substituted with `0`, and a row all of whose consumed values
are convertible normalizes without failure; but a present non-convertible
value raises, is caught by the enclosing handler, and the whole record is
replaced (result `None`, hence the all-zero snapshot). -/
theorem C3_amended_field_resolution (latest : Row) (p : List Row) :
    ((∀ k ∈ fieldKeys, rowGet latest k (PyValue.num 0) ≠ PyValue.nonNumeric) →
      getFundFlowTry (fun _ _ => .ok (p ++ [latest])) "600000" =
        .ok (some ⟨fieldVal latest "主力净流入-净额", fieldVal latest "超大单净流入-净额",
                   fieldVal latest "大单净流入-净额", fieldVal latest "中单净流入-净额",
                   fieldVal latest "小单净流入-净额", fieldVal latest "主力净流入-净占比",
                   fieldVal latest "主力买入成交额", fieldVal latest "主力卖出成交额"⟩)) ∧
    ((∃ k ∈ fieldKeys, rowGet latest k (PyValue.num 0) = PyValue.nonNumeric) →
      (get_fund_flow_data (fun _ _ => .ok (p ++ [latest])) "600000").result = none) := by
  constructor
  · intro hall
    unfold getFundFlowTry
    simp only [show classifyMarket "600000" = some "sh" from by decide,
      List.getLast?_concat]
    rw [coerceField_ok_of_convertible latest _ (hall _ (by decide)),
      coerceField_ok_of_convertible latest _ (hall _ (by decide)),
      coerceField_ok_of_convertible latest _ (hall _ (by decide)),
      coerceField_ok_of_convertible latest _ (hall _ (by decide)),
      coerceField_ok_of_convertible latest _ (hall _ (by decide)),
      coerceField_ok_of_convertible latest _ (hall _ (by decide)),
      coerceField_ok_of_convertible latest _ (hall _ (by decide)),
      coerceField_ok_of_convertible latest _ (hall _ (by decide))]
  · rintro ⟨k, hk, hbad⟩
    have hks : k = "主力净流入-净额" ∨ k = "超大单净流入-净额" ∨ k = "大单净流入-净额" ∨
        k = "中单净流入-净额" ∨ k = "小单净流入-净额" ∨ k = "主力净流入-净占比" ∨
        k = "主力买入成交额" ∨ k = "主力卖出成交额" := by
      simpa [fieldKeys] using hk
    have hbadc : coerceField latest k = .error "could not convert value to float" := by
      simp [coerceField, hbad, pyFloat]
    unfold get_fund_flow_data getFundFlowTry
    simp only [show classifyMarket "600000" = some "sh" from by decide,
      List.getLast?_concat]
    cases hc1 : coerceField latest "主力净流入-净额" with
    | error e => simp
    | ok v1 =>
    cases hc2 : coerceField latest "超大单净流入-净额" with
    | error e => simp
    | ok v2 =>
    cases hc3 : coerceField latest "大单净流入-净额" with
    | error e => simp
    | ok v3 =>
    cases hc4 : coerceField latest "中单净流入-净额" with
    | error e => simp
    | ok v4 =>
    cases hc5 : coerceField latest "小单净流入-净额" with
    | error e => simp
    | ok v5 =>
    cases hc6 : coerceField latest "主力净流入-净占比" with
    | error e => simp
    | ok v6 =>
    cases hc7 : coerceField latest "主力买入成交额" with
    | error e => simp
    | ok v7 =>
    cases hc8 : coerceField latest "主力卖出成交额" with
    | error e => simp
    | ok v8 =>
    exfalso
    rcases hks with rfl | rfl | rfl | rfl | rfl | rfl | rfl | rfl <;>
      simp_all

/-- Witness for C3 amended: a one-row series with one present field and
seven absent fields resolves per-field; the same row with a non-convertible
value yields a `None` record. -/
theorem C3_witness :
    getFundFlowTry
        (fun _ _ => .ok [[("超大单净流入-净额", PyValue.num 7)]]) "600000" =
      .ok (some ⟨0, 7, 0, 0, 0, 0, 0, 0⟩) ∧
    (get_fund_flow_data
        (fun _ _ => .ok [[("超大单净流入-净额", PyValue.nonNumeric)]]) "600000").result
      = none := by
  constructor
  · have h := (C3_amended_field_resolution [("超大单净流入-净额", PyValue.num 7)] []).1
      (by decide)
    exact h.trans (by simp [fieldVal, rowGet])
  · exact (C3_amended_field_resolution [("超大单净流入-净额", PyValue.nonNumeric)] []).2
      ⟨"超大单净流入-净额", by decide, by decide⟩

/-- Helper: a string starts with any string it literally extends. -/
theorem pyStartsWith_append_self (pre t : String) :
    pyStartsWith (pre ++ t) pre = true := by
  simp [pyStartsWith, String.data_append, List.isPrefixOf_iff_prefix]

/-- Helper: an all-digit string never starts with a label whose first
character is `S`. -/
theorem digit_no_label (t : String) (hd : ∀ c ∈ t.data, c.isDigit)
    (pre : String) (hp : pre.data.head? = some 'S') :
    pyStartsWith t pre = false := by
  cases ht : t.data with
  | nil =>
    cases hpre : pre.data with
    | nil => simp [hpre] at hp
    | cons c cs => simp [pyStartsWith, ht, hpre, List.isPrefixOf]
  | cons c cs =>
    cases hpre : pre.data with
    | nil => simp [hpre] at hp
    | cons b bs =>
      have hb : b = 'S' := by simp [hpre] at hp; exact hp.symm ▸ rfl
      have hc : c.isDigit := hd c (ht ▸ List.mem_cons_self c cs)
      simp [pyStartsWith, ht, hpre, List.isPrefixOf]
      intro hbc
      exfalso
      rw [hb] at hbc
      rw [← hbc] at hc
      exact absurd hc (by decide)

/-- C5: for every digit ticker `t`, the driver strips exactly the first two
characters from `SH`- and `SZ`-labelled inputs (case-sensitive: a lowercase
label is not stripped), leaves the bare digit string unchanged, and the
classification of all three coincides — it is recomputed from the digit
prefix, the stripped label being discarded. -/
theorem C5_label_stripping (t : String) (hd : ∀ c ∈ t.data, c.isDigit) :
    stripCode ("SH" ++ t) = t ∧ stripCode ("SZ" ++ t) = t ∧ stripCode t = t ∧
    stripCode ("sh" ++ t) = "sh" ++ t ∧
    classifyMarket (stripCode ("SH" ++ t)) = classifyMarket t ∧
    classifyMarket (stripCode ("SZ" ++ t)) = classifyMarket t := by
  have hSH : stripCode ("SH" ++ t) = t := by
    unfold stripCode
    rw [if_pos]
    · apply String.ext
      rw [String.data_drop, String.data_append]
      rfl
    · rw [pyStartsWith_append_self]
      simp
  have hSZ : stripCode ("SZ" ++ t) = t := by
    unfold stripCode
    rw [if_pos]
    · apply String.ext
      rw [String.data_drop, String.data_append]
      rfl
    · rw [pyStartsWith_append_self]
      simp
  have hid : stripCode t = t := by
    unfold stripCode
    rw [if_neg]
    rw [digit_no_label t hd "SH" rfl, digit_no_label t hd "SZ" rfl]
    simp
  have hlc : stripCode ("sh" ++ t) = "sh" ++ t := by
    unfold stripCode
    rw [if_neg]
    simp [pyStartsWith, String.data_append, List.isPrefixOf]
  exact ⟨hSH, hSZ, hid, hlc, by rw [hSH], by rw [hSZ]⟩

/-- Witness for C5 at the spec's own example `SH600000` / `600000`. -/
theorem C5_witness :
    stripCode ("SH" ++ "600000") = "600000" ∧
    classifyMarket (stripCode ("SH" ++ "600000")) = classifyMarket "600000" ∧
    classifyMarket "600000" = some "sh" :=
  ⟨(C5_label_stripping "600000" (by decide)).1,
    (C5_label_stripping "600000" (by decide)).2.2.2.2.1,
    by decide⟩
